import Mathlib

/-!
Shallow embedding of `coilsnake/util/common/project.py` (module configuration
and project descriptor management) and proofs of the specification claims.

Modelling conventions:
* Python lists of strings become `List String`; Python dicts become ordered
  association lists (`assocFind` / `assocSet` / `assocErase` mirror `in`,
  `d[k] = v` and `del d[k]`, preserving insertion order as Python dicts do).
* The process-wide module registry (`ModuleConfig._DEFAULT_MODULES`, populated
  by `_get_default_modules`) is passed explicitly as a `Registry` argument to
  the functions that read it; the caching itself is not modelled.
* A Python module class is modelled by `ModClass`, exposing only the
  `is_compatible_with_romtype` predicate that this file consults.
* Exceptions (`assert`, `NotImplementedError`, `CoilSnakeError`, `IndexError`
  and module-resolution failures) become `Except` error values.
* Filesystem state, where a claim needs it, is a list of existing file paths;
  `os.path.join` is `pjoin`.
-/

/-- A built-in or project-specific module class: the only part of the class
this code consults is its `is_compatible_with_romtype` class method. -/
structure ModClass where
  is_compatible_with_romtype : String → Bool

/-- The module registry: an ordered sequence of (dotted name, module class)
pairs, as produced by `ModuleConfig._get_default_modules`. -/
abbrev Registry := List (String × ModClass)

/-- The resource registry: module name → resource name → relative file path,
modelling `Project._resources` (a dict of dicts). -/
abbrev Resources := List (String × List (String × String))

/-- Dict membership / lookup on an association list (Python `k in d` / `d[k]`). -/
def assocFind {α : Type} : List (String × α) → String → Option α
  | [], _ => none
  | (k', v') :: rest, k => if k' = k then some v' else assocFind rest k

/-- Dict assignment `d[k] = v`: updates in place if the key exists, otherwise
appends (Python dicts preserve insertion order). -/
def assocSet {α : Type} : List (String × α) → String → α → List (String × α)
  | [], k, v => [(k, v)]
  | (k', v') :: rest, k, v =>
      if k' = k then (k, v) :: rest else (k', v') :: assocSet rest k v

/-- Dict deletion `del d[k]`: removes the first (unique) binding of `k`. -/
def assocErase {α : Type} : List (String × α) → String → List (String × α)
  | [], _ => []
  | (k', v') :: rest, k =>
      if k' = k then rest else (k', v') :: assocErase rest k

/-- Two-level lookup into the resource registry. -/
def lookupResource (res : Resources) (m r : String) : Option String :=
  match assocFind res m with
  | none => none
  | some inner => assocFind inner r

/-- Modelled from the spec: `ROM_TYPE_NAME_UNKNOWN`, imported from
`coilsnake.model.common.blocks` which is not under `src/`; the spec calls it
"a reserved sentinel \"unknown\"". Only its identity matters here. -/
def ROM_TYPE_NAME_UNKNOWN : String := "unknown"

/-- `FORMAT_VERSION = 13`, the current project format version. -/
def FORMAT_VERSION : Nat := 13

/-- The decoded `module configuration` block of a descriptor file: the three
string lists stored under `L_ENABLED`, `L_DISABLED`, `L_PROJ_SPECIFIC`. -/
structure ModuleConfigDict where
  enabled : List String
  disabled : List String
  projSpecific : List String
deriving DecidableEq, Repr

/-- Per-project module configuration state (`class ModuleConfig`). -/
structure ModuleConfig where
  romtype : String
  project_dir : String
  enabled_module_names : List String
  disabled_module_names : List String
  project_specific_modules : List String
deriving DecidableEq, Repr

/-- Errors raised by `ModuleConfig.upgrade`: a failed `assert`, or the
`NotImplementedError` whose message interpolates only `old_version`. -/
inductive UpgradeError
  | assertionError
  | notImplementedError (old_version : Nat)
deriving DecidableEq, Repr

/-- Errors raised while reading the module manifest in
`_get_default_modules`: `line[0]` on an empty line raises `IndexError`, and a
failed `__import__` / attribute lookup is an import error for that line. -/
inductive ManifestError
  | indexError
  | importError (name : String)
deriving DecidableEq, Repr

/-- A line is comment-marked when its first character is `#`
(`line[0] == '#'`); an empty line has no first character. -/
def isCommentLine (l : String) : Bool :=
  match l.data with
  | [] => false
  | c :: _ => c = '#'

/-- `ModuleConfig._get_default_modules`, reading `modulelist.txt`. The
argument is the list of manifest lines after `rstrip('\n')`; `resolver`
models the `__import__` of `coilsnake.modules.<line>` followed by the
`components[-1]` attribute lookup (external import machinery), returning
`none` when it fails. On an empty line, `line[0]` raises `IndexError`. -/
def getDefaultModulesFromManifest (resolver : String → Option ModClass) :
    List String → Except ManifestError (List (String × ModClass))
  | [] => .ok []
  | line :: rest =>
    match line.data with
    | [] => .error .indexError
    | c :: _ =>
      if c = '#' then
        getDefaultModulesFromManifest resolver rest
      else
        match resolver line with
        | none => .error (.importError line)
        | some cls =>
          match getDefaultModulesFromManifest resolver rest with
          | .error e => .error e
          | .ok tail => .ok ((line, cls) :: tail)

namespace ModuleConfig

/-- `class_is_compatible`: delegates to the class's own compatibility check. -/
def class_is_compatible (cfg : ModuleConfig) (cls : ModClass) : Bool :=
  cls.is_compatible_with_romtype cfg.romtype

/-- `filter_to_compatible`: keeps the compatible (name, class) pairs, in
input order. -/
def filter_to_compatible (cfg : ModuleConfig) (mods : Registry) : Registry :=
  mods.filter (fun m => cfg.class_is_compatible m.2)

/-- `get_compatible_default_module_names`, with the registry explicit. -/
def get_compatible_default_module_names (cfg : ModuleConfig)
    (registry : Registry) : List String :=
  (cfg.filter_to_compatible registry).map Prod.fst

/-- Standalone form of `get_compatible_default_module_names`, usable before a
`ModuleConfig` value exists (as `__init__` does on `self` mid-construction). -/
def compatible_default_module_names (registry : Registry) (romtype : String) :
    List String :=
  (registry.filter (fun m => m.2.is_compatible_with_romtype romtype)).map Prod.fst

/-- `ModuleConfig.__init__`: with a (truthy) stored dict, adopt its three
lists verbatim; otherwise derive the defaults for the rom type. -/
def init (registry : Registry) (romtype project_dir : String) :
    Option ModuleConfigDict → ModuleConfig
  | some d =>
    { romtype := romtype, project_dir := project_dir,
      enabled_module_names := d.enabled,
      disabled_module_names := d.disabled,
      project_specific_modules := d.projSpecific }
  | none =>
    { romtype := romtype, project_dir := project_dir,
      enabled_module_names := compatible_default_module_names registry romtype,
      disabled_module_names := [],
      project_specific_modules := [] }

/-- `to_dict`: the three lists under their labels. -/
def to_dict (cfg : ModuleConfig) : ModuleConfigDict :=
  { enabled := cfg.enabled_module_names,
    disabled := cfg.disabled_module_names,
    projSpecific := cfg.project_specific_modules }

/-- `add_missing_defaults(enabled)`: collect the compatible registry names not
yet in `enabled ∪ disabled` (in registry order) and append them to the chosen
list. -/
def add_missing_defaults (cfg : ModuleConfig) (registry : Registry)
    (enabled : Bool) : ModuleConfig :=
  let present := cfg.enabled_module_names ++ cfg.disabled_module_names
  let missing :=
    ((cfg.filter_to_compatible registry).map Prod.fst).filter
      (fun name => ¬ present.contains name)
  if enabled then
    { cfg with enabled_module_names := cfg.enabled_module_names ++ missing }
  else
    { cfg with disabled_module_names := cfg.disabled_module_names ++ missing }

/-- `get_project_modules`: registry entries that are both enabled by name and
currently compatible, in registry order, followed by the project-specific
modules in list order. `loader` models `load_project_specific_module`
(external dynamic import, assumed to resolve). -/
def get_project_modules (cfg : ModuleConfig) (registry : Registry)
    (loader : String → ModClass) : Registry :=
  (registry.filter (fun m =>
      cfg.enabled_module_names.contains m.1 && cfg.class_is_compatible m.2))
    ++ cfg.project_specific_modules.map (fun name => (name, loader name))

/-- `upgrade(old_version, new_version)`: below version 13, three `assert`s
require the configuration to equal the freshly derived default; from 13 on,
`NotImplementedError` is raised, interpolating `old_version` in its message
(`new_version` is unused by the source). -/
def upgrade (cfg : ModuleConfig) (registry : Registry)
    (old_version new_version : Nat) : Except UpgradeError Unit :=
  if old_version < 13 then
    if cfg.enabled_module_names ≠ cfg.get_compatible_default_module_names registry then
      .error .assertionError
    else if cfg.disabled_module_names ≠ [] then
      .error .assertionError
    else if cfg.project_specific_modules ≠ [] then
      .error .assertionError
    else
      .ok ()
  else
    .error (.notImplementedError old_version)

end ModuleConfig

/-- The decoded contents of a `Project.snake` descriptor file. `romtype` and
`resources` are mandatory keys (`data["romtype"]`, `data["resources"]`);
`resources` may still be YAML null (`none` here). `version` and the module
configuration block are optional (`data.get`). -/
structure ProjectFile where
  romtype : String
  version : Option Nat
  moduleconfig : Option ModuleConfigDict
  resources : Option Resources

/-- Failure of `Project.__init__`: the `assert romtype and romtype !=
ROM_TYPE_NAME_UNKNOWN` guarding new-project creation. -/
inductive ProjectError
  | unknownTypeNewProject
deriving DecidableEq, Repr

/-- `CoilSnakeError`s raised by `delete_resource`. -/
inductive CoilSnakeError
  | noSuchModule (module_name : String)
  | noSuchResource (resource_name module_name : String)
deriving DecidableEq, Repr

/-- In-memory project state. `version : Option Nat` models the `version`
attribute: `none` means the attribute was never assigned, so reading it
raises `AttributeError`. -/
structure Project where
  romtype : String
  resources : Resources
  moduleconfig : ModuleConfig
  version : Option Nat
  dirName : String

/-- `os.path.join(dir, rel)` for a relative `rel`. -/
def pjoin (a b : String) : String :=
  if a = "" then b else a ++ "/" ++ b

namespace Project

/-- `Project.__init__(snake_filename, romtype)`. `file` is the decoded
descriptor when the file exists (`none` models `IOError`); `dir_name` is
`os.path.dirname(snake_filename)`. Matching open adopts the decoded romtype,
resources (null becomes `{}`), version (default 1) and module-configuration
block; a romtype mismatch keeps the pre-initialized empty resources, leaves
`version` unassigned and derives a fresh module configuration; a missing file
requires a truthy, non-unknown romtype and also leaves `version` unassigned. -/
def init (registry : Registry) (dir_name : String) (file : Option ProjectFile)
    (romtype : Option String) : Except ProjectError Project :=
  match file with
    | some data =>
      if romtype = none ∨ romtype = some data.romtype then
        .ok { romtype := data.romtype,
              resources := data.resources.getD [],
              version := some (data.version.getD 1),
              moduleconfig := ModuleConfig.init registry data.romtype dir_name data.moduleconfig,
              dirName := dir_name }
      else
        .ok { romtype := romtype.getD "",
              resources := [],
              version := none,
              moduleconfig := ModuleConfig.init registry (romtype.getD "") dir_name none,
              dirName := dir_name }
    | none =>
      match romtype with
      | none => .error .unknownTypeNewProject
      | some r =>
        if r = "" ∨ r = ROM_TYPE_NAME_UNKNOWN then
          .error .unknownTypeNewProject
        else
          .ok { romtype := r,
                resources := [],
                version := none,
                moduleconfig := ModuleConfig.init registry r dir_name none,
                dirName := dir_name }

/-- `Project.save`: the written file always carries the current
`FORMAT_VERSION`, the module-configuration dict and the resource registry. -/
def save (p : Project) : ProjectFile :=
  { romtype := p.romtype,
    version := some FORMAT_VERSION,
    moduleconfig := some p.moduleconfig.to_dict,
    resources := some p.resources }

/-- `Project.get_resource` without the final `open` step: registers the
default relative path `resource_name + "." + extension` for a missing entry,
then returns the joined filename and the updated project. -/
def get_resource (p : Project) (module_name resource_name extension : String) :
    String × Project :=
  let resources1 :=
    if (assocFind p.resources module_name).isSome then p.resources
    else assocSet p.resources module_name []
  let inner := (assocFind resources1 module_name).getD []
  let resources2 :=
    if (assocFind inner resource_name).isSome then resources1
    else assocSet resources1 module_name
      (assocSet inner resource_name (resource_name ++ "." ++ extension))
  let inner2 := (assocFind resources2 module_name).getD []
  let relname := (assocFind inner2 resource_name).getD ""
  (pjoin p.dirName relname, { p with resources := resources2 })

/-- `Project.get_resource` including the final `open(fname, mode, ...)`:
`openOk` tells whether the open succeeds for a given path. The registry
mutation has already happened when the open is attempted, so the updated
project is returned either way. -/
def get_resource_attempt_open (p : Project) (openOk : String → Bool)
    (module_name resource_name extension : String) :
    Option String × Project :=
  let fp := p.get_resource module_name resource_name extension
  (if openOk fp.1 then some fp.1 else none, fp.2)

/-- `Project.delete_resource`: `CoilSnakeError` when the module or resource
key is absent; otherwise remove the file if it exists in `files` and always
delete the registry entry. -/
def delete_resource (p : Project) (files : List String)
    (module_name resource_name : String) :
    Except CoilSnakeError (Project × List String) :=
  match assocFind p.resources module_name with
  | none => .error (.noSuchModule module_name)
  | some inner =>
    match assocFind inner resource_name with
    | none => .error (.noSuchResource resource_name module_name)
    | some rel =>
      let fname := pjoin p.dirName rel
      let files2 := if files.contains fname then files.filter (fun x => x ≠ fname) else files
      .ok ({ p with resources := assocSet p.resources module_name (assocErase inner resource_name) },
           files2)

/-- `Project.load_modules`: delegates to the module configuration. -/
def load_modules (p : Project) (registry : Registry)
    (loader : String → ModClass) : Registry :=
  p.moduleconfig.get_project_modules registry loader

/-- `Project.upgrade`: delegates to `ModuleConfig.upgrade`, then (only if
that did not raise) assigns `self.version = new_version`. -/
def upgrade (p : Project) (registry : Registry) (old_version new_version : Nat) :
    Except UpgradeError Project :=
  match p.moduleconfig.upgrade registry old_version new_version with
  | .error e => .error e
  | .ok _ => .ok { p with version := some new_version }

end Project

/-! ## Helper lemmas -/

theorem assocFind_assocSet_self {α : Type} (l : List (String × α)) (k : String) (v : α) :
    assocFind (assocSet l k v) k = some v := by
  induction l with
  | nil => simp [assocSet, assocFind]
  | cons hd tl ih =>
    by_cases h : hd.1 = k
    · simp [assocSet, assocFind, h]
    · simp [assocSet, assocFind, h, ih]

theorem assocFind_eq_none_of_not_mem_keys {α : Type} (l : List (String × α))
    (k : String) (h : k ∉ l.map Prod.fst) : assocFind l k = none := by
  induction l with
  | nil => rfl
  | cons hd tl ih =>
    simp only [List.map_cons, List.mem_cons] at h
    push_neg at h
    have hne : ¬ hd.1 = k := fun hh => h.1 hh.symm
    simp [assocFind, hne, ih h.2]

theorem assocFind_assocErase_self {α : Type} (l : List (String × α)) (k : String)
    (h : (l.map Prod.fst).Nodup) : assocFind (assocErase l k) k = none := by
  induction l with
  | nil => rfl
  | cons hd tl ih =>
    simp only [List.map_cons, List.nodup_cons] at h
    by_cases hk : hd.1 = k
    · simp only [assocErase, if_pos hk]
      exact assocFind_eq_none_of_not_mem_keys tl k (hk ▸ h.1)
    · simp [assocErase, assocFind, hk, ih h.2]

/-- Fresh configurations resolve to exactly the compatible registry subset:
each compatible entry is enabled by construction, so the double check in
`get_project_modules` reduces to the compatibility filter alone. -/
theorem get_project_modules_init_none (registry : Registry) (T dir : String)
    (loader : String → ModClass) :
    (ModuleConfig.init registry T dir none).get_project_modules registry loader =
      registry.filter (fun m => m.2.is_compatible_with_romtype T) := by
  simp only [ModuleConfig.init, ModuleConfig.get_project_modules, List.map_nil,
    List.append_nil, ModuleConfig.class_is_compatible]
  apply List.filter_congr
  intro m hm
  by_cases hc : m.2.is_compatible_with_romtype T = true
  · simp only [hc, Bool.and_true]
    simp only [ModuleConfig.compatible_default_module_names]
    simp only [List.contains_eq_any_beq, List.any_eq_true, List.mem_map,
      List.mem_filter]
    exact ⟨m.1, ⟨m, ⟨hm, hc⟩, rfl⟩, by simp⟩
  · simp only [Bool.not_eq_true] at hc
    simp [hc]

/-! ## Claims -/

/-- C1: a ModuleConfiguration constructed fresh (no stored descriptor block)
resolves via `get_project_modules` to exactly the registry-order subset of
the registry compatible with the target type; when registry names are unique
the result has no duplicate entries; and its project-specific list is empty,
so every built-in module (the whole result) precedes every project-specific
module. -/
theorem C1_fresh_active_modules (registry : Registry) (T dir : String)
    (loader : String → ModClass)
    (hnodup : (registry.map Prod.fst).Nodup) :
    (ModuleConfig.init registry T dir none).get_project_modules registry loader =
        registry.filter (fun m => m.2.is_compatible_with_romtype T)
      ∧ (((ModuleConfig.init registry T dir none).get_project_modules registry loader).map
          Prod.fst).Nodup
      ∧ (ModuleConfig.init registry T dir none).project_specific_modules = [] := by
  refine ⟨get_project_modules_init_none registry T dir loader, ?_, rfl⟩
  rw [get_project_modules_init_none registry T dir loader]
  exact hnodup.sublist ((List.filter_sublist registry).map Prod.fst)

/-- Concrete registry for the C1 witness: one module compatible with "X",
one incompatible. -/
def regW : Registry :=
  [("mod.A", ⟨fun t => t == "X"⟩), ("mod.B", ⟨fun _ => false⟩)]

/-- Witness for C1 at a two-entry registry and target type "X". -/
theorem C1_fresh_active_modules_witness :
    (regW.map Prod.fst).Nodup
    ∧ ((ModuleConfig.init regW "X" "proj" none).get_project_modules regW
          (fun _ => ⟨fun _ => true⟩) =
        regW.filter (fun m => m.2.is_compatible_with_romtype "X")
      ∧ (((ModuleConfig.init regW "X" "proj" none).get_project_modules regW
          (fun _ => ⟨fun _ => true⟩)).map Prod.fst).Nodup
      ∧ (ModuleConfig.init regW "X" "proj" none).project_specific_modules = []) :=
  ⟨by decide,
   C1_fresh_active_modules regW "X" "proj" (fun _ => ⟨fun _ => true⟩) (by decide)⟩

/-- A configuration already equal to its (empty-registry) defaults, used for
the C2 counterexample and witness. -/
def cfgW : ModuleConfig :=
  { romtype := "X", project_dir := "proj", enabled_module_names := [],
    disabled_module_names := [], project_specific_modules := [] }

/-- C2 counterexample: upgrading from version 13 raises a
`NotImplementedError` whose payload holds only the old version; the results
for new versions 14 and 15 are identical, so the error cannot be carrying
the new version number as the claim states. -/
theorem C2_counterexample :
    cfgW.upgrade [] 13 14 = .error (.notImplementedError 13)
    ∧ cfgW.upgrade [] 13 15 = .error (.notImplementedError 13)
    ∧ cfgW.upgrade [] 13 14 = cfgW.upgrade [] 13 15 :=
  ⟨rfl, rfl, rfl⟩

/-- C2 (amended): below version 13 the upgrade succeeds exactly when the
three lists equal the fresh default derivation (enabled = compatible default
names, disabled and project-specific empty), failing the assertion otherwise;
from version 13 upward it fails with `NotImplementedError` carrying the old
version number only. -/
theorem C2_upgrade_amended (cfg : ModuleConfig) (registry : Registry)
    (old_version new_version : Nat) :
    (old_version < 13 →
      (cfg.upgrade registry old_version new_version = .ok () ↔
        (cfg.enabled_module_names = cfg.get_compatible_default_module_names registry
          ∧ cfg.disabled_module_names = []
          ∧ cfg.project_specific_modules = [])))
    ∧ (13 ≤ old_version →
        cfg.upgrade registry old_version new_version =
          .error (.notImplementedError old_version)) := by
  constructor
  · intro h
    unfold ModuleConfig.upgrade
    rw [if_pos h]
    split_ifs with h1 h2 h3
    · simp [h1]
    · simp [h2]
    · simp [h3]
    · push_neg at h1 h2 h3
      simp [h1, h2, h3]
  · intro h
    unfold ModuleConfig.upgrade
    rw [if_neg (by omega)]

/-- Witness for C2 (amended): the pre-epoch upgrade succeeds on a
default-equal configuration, and the epoch upgrade fails with the error
carrying the old version. -/
theorem C2_upgrade_amended_witness :
    cfgW.upgrade [] 5 13 = .ok ()
    ∧ cfgW.upgrade [] 13 14 = .error (.notImplementedError 13) :=
  ⟨((C2_upgrade_amended cfgW [] 5 13).1 (by decide)).mpr (by decide),
   (C2_upgrade_amended cfgW [] 13 14).2 (by decide)⟩

/-- C3: saving a project and re-opening the written descriptor (with no
requested type, or with the matching one) reproduces the romtype, the
resource registry and the three module-configuration lists, and the stored
version is normalized to `FORMAT_VERSION` regardless of the version before
saving. -/
theorem C3_save_open_roundtrip (registry : Registry) (p : Project)
    (arg : Option String) (h : arg = none ∨ arg = some p.romtype) :
    ∃ q : Project,
      Project.init registry p.dirName (some p.save) arg = .ok q
      ∧ q.romtype = p.romtype
      ∧ q.resources = p.resources
      ∧ q.version = some FORMAT_VERSION
      ∧ q.moduleconfig.enabled_module_names = p.moduleconfig.enabled_module_names
      ∧ q.moduleconfig.disabled_module_names = p.moduleconfig.disabled_module_names
      ∧ q.moduleconfig.project_specific_modules
          = p.moduleconfig.project_specific_modules := by
  unfold Project.init
  have hc : arg = none ∨ arg = some (p.save).romtype := h
  dsimp only
  rw [if_pos hc]
  exact ⟨_, rfl, rfl, rfl, rfl, rfl, rfl, rfl⟩

/-- A concrete project with a non-current version, custom lists and a
registered resource, for the C3 witness. -/
def projW : Project :=
  { romtype := "X",
    resources := [("m", [("r", "r.dat")])],
    moduleconfig :=
      { romtype := "X", project_dir := "d",
        enabled_module_names := ["mod.A"],
        disabled_module_names := ["mod.B"],
        project_specific_modules := ["custom.C"] },
    version := some 3,
    dirName := "d" }

/-- Witness for C3: the round trip at a concrete project, opened without a
requested type. -/
theorem C3_save_open_roundtrip_witness :
    ((none : Option String) = none ∨ (none : Option String) = some projW.romtype)
    ∧ ∃ q : Project,
      Project.init [] projW.dirName (some projW.save) none = .ok q
      ∧ q.romtype = projW.romtype
      ∧ q.resources = projW.resources
      ∧ q.version = some FORMAT_VERSION
      ∧ q.moduleconfig.enabled_module_names = projW.moduleconfig.enabled_module_names
      ∧ q.moduleconfig.disabled_module_names = projW.moduleconfig.disabled_module_names
      ∧ q.moduleconfig.project_specific_modules
          = projW.moduleconfig.project_specific_modules :=
  ⟨Or.inl rfl, C3_save_open_roundtrip [] projW none (Or.inl rfl)⟩

/-- C4: opening an existing descriptor with a requested target type that
differs from the stored one adopts the requested type, starts from an empty
resource registry, and derives the module configuration freshly from the
registry defaults for the requested type, carrying over nothing stored. -/
theorem C4_mismatched_open (registry : Registry) (dir : String)
    (data : ProjectFile) (rt : String) (h : rt ≠ data.romtype) :
    ∃ q : Project,
      Project.init registry dir (some data) (some rt) = .ok q
      ∧ q.romtype = rt
      ∧ q.resources = []
      ∧ q.moduleconfig.enabled_module_names
          = ModuleConfig.compatible_default_module_names registry rt
      ∧ q.moduleconfig.disabled_module_names = []
      ∧ q.moduleconfig.project_specific_modules = [] := by
  unfold Project.init
  dsimp only
  rw [if_neg]
  · exact ⟨_, rfl, rfl, rfl, rfl, rfl, rfl⟩
  · rintro (hc | hc)
    · exact Option.noConfusion hc
    · exact h (Option.some.inj hc)

/-- A stored descriptor of romtype "Y" with resources and a module block,
for the C4 witness. -/
def fileW : ProjectFile :=
  { romtype := "Y", version := some 12,
    moduleconfig := some { enabled := ["mod.A"], disabled := [], projSpecific := ["c.D"] },
    resources := some [("m", [("r", "r.dat")])] }

/-- Witness for C4: opening `fileW` while requesting romtype "X". -/
theorem C4_mismatched_open_witness :
    "X" ≠ fileW.romtype
    ∧ ∃ q : Project,
      Project.init regW "d" (some fileW) (some "X") = .ok q
      ∧ q.romtype = "X"
      ∧ q.resources = []
      ∧ q.moduleconfig.enabled_module_names
          = ModuleConfig.compatible_default_module_names regW "X"
      ∧ q.moduleconfig.disabled_module_names = []
      ∧ q.moduleconfig.project_specific_modules = [] :=
  ⟨by decide, C4_mismatched_open regW "d" fileW "X" (by decide)⟩


/-- The compatible registry names absent from enabled-union-disabled, in
registry order: the spec's description of what `add_missing_defaults`
appends to the chosen list. -/
def missingDefaults (cfg : ModuleConfig) (registry : Registry) : List String :=
  ((registry.filter
      (fun m => m.2.is_compatible_with_romtype cfg.romtype)).map Prod.fst).filter
    (fun n => !(cfg.enabled_module_names.contains n
                || cfg.disabled_module_names.contains n))

/-- The filter computed inside `add_missing_defaults` equals the spec-side
`missingDefaults` list. -/
theorem missingDefaults_eq_code (cfg : ModuleConfig) (registry : Registry) :
    ((cfg.filter_to_compatible registry).map Prod.fst).filter
        (fun name =>
          ¬ (cfg.enabled_module_names ++ cfg.disabled_module_names).contains name)
      = missingDefaults cfg registry := by
  unfold missingDefaults ModuleConfig.filter_to_compatible
    ModuleConfig.class_is_compatible
  apply List.filter_congr
  intro n _
  simp [List.mem_append]

/-- `add_missing_defaults` with the enabled flag grows exactly the enabled
list, by the missing names. -/
theorem add_missing_defaults_true_eq (cfg : ModuleConfig) (registry : Registry) :
    cfg.add_missing_defaults registry true =
      { cfg with enabled_module_names :=
          cfg.enabled_module_names ++ missingDefaults cfg registry } := by
  rw [← missingDefaults_eq_code]
  rfl

/-- `add_missing_defaults` with the disabled flag grows exactly the disabled
list, by the missing names. -/
theorem add_missing_defaults_false_eq (cfg : ModuleConfig) (registry : Registry) :
    cfg.add_missing_defaults registry false =
      { cfg with disabled_module_names :=
          cfg.disabled_module_names ++ missingDefaults cfg registry } := by
  rw [← missingDefaults_eq_code]
  rfl

/-- When no compatible name is missing, `add_missing_defaults` is the
identity. -/
theorem add_missing_defaults_of_nil (cfg : ModuleConfig) (registry : Registry)
    (flag : Bool) (h : missingDefaults cfg registry = []) :
    cfg.add_missing_defaults registry flag = cfg := by
  cases flag
  · rw [add_missing_defaults_false_eq, h, List.append_nil]
  · rw [add_missing_defaults_true_eq, h, List.append_nil]

/-- Membership in the spec-side missing list: a compatible registry name not
yet enabled or disabled. -/
theorem mem_missingDefaults (cfg : ModuleConfig) (registry : Registry)
    (n : String) :
    n ∈ missingDefaults cfg registry ↔
      (n ∈ (registry.filter
          (fun m => m.2.is_compatible_with_romtype cfg.romtype)).map Prod.fst
        ∧ n ∉ cfg.enabled_module_names ∧ n ∉ cfg.disabled_module_names) := by
  unfold missingDefaults
  rw [List.mem_filter]
  simp [and_assoc]

/-- After one `add_missing_defaults` call, every compatible name is present,
so the missing list of the result is empty. -/
theorem missingDefaults_add_missing_defaults (cfg : ModuleConfig)
    (registry : Registry) (flag : Bool) :
    missingDefaults (cfg.add_missing_defaults registry flag) registry = [] := by
  rw [List.eq_nil_iff_forall_not_mem]
  intro n hmem
  rw [mem_missingDefaults] at hmem
  cases flag
  · rw [add_missing_defaults_false_eq] at hmem
    simp only at hmem
    obtain ⟨hC, hen, hdis⟩ := hmem
    rw [List.mem_append] at hdis
    push_neg at hdis
    exact hdis.2 ((mem_missingDefaults cfg registry n).mpr ⟨hC, hen, hdis.1⟩)
  · rw [add_missing_defaults_true_eq] at hmem
    simp only at hmem
    obtain ⟨hC, hen, hdis⟩ := hmem
    rw [List.mem_append] at hen
    push_neg at hen
    exact hen.2 ((mem_missingDefaults cfg registry n).mpr ⟨hC, hen.1, hdis⟩)

/-- C5: `add_missing_defaults` appends to the chosen list exactly the
compatible registry names absent from enabled-union-disabled, in registry
order, leaving the other lists untouched; and a second call with the same
flag is a no-op. -/
theorem C5_add_missing_defaults_idempotent (cfg : ModuleConfig)
    (registry : Registry) (flag : Bool) :
    (cfg.add_missing_defaults registry true =
      { cfg with enabled_module_names :=
          cfg.enabled_module_names ++ missingDefaults cfg registry })
    ∧ (cfg.add_missing_defaults registry false =
      { cfg with disabled_module_names :=
          cfg.disabled_module_names ++ missingDefaults cfg registry })
    ∧ ((cfg.add_missing_defaults registry flag).add_missing_defaults registry flag
        = cfg.add_missing_defaults registry flag) :=
  ⟨add_missing_defaults_true_eq cfg registry,
   add_missing_defaults_false_eq cfg registry,
   add_missing_defaults_of_nil _ registry flag
     (missingDefaults_add_missing_defaults cfg registry flag)⟩

/-- C6 counterexample: a manifest containing a blank line makes discovery
fail with an `IndexError` (from `line[0]` on the empty string) instead of
skipping the blank line, even though every nonblank line resolves. -/
theorem C6_counterexample :
    getDefaultModulesFromManifest (fun _ => some ⟨fun _ => true⟩)
      ["mod.A", "", "mod.B"] = .error .indexError := rfl

/-- C6 (amended): on a manifest whose lines are all nonblank, discovery
skips every comment-marked line without failing and resolves exactly the
remaining lines in manifest order; a blank line is not skipped but raises an
`IndexError` (see the counterexample). -/
theorem C6_manifest_amended (resolver : String → Option ModClass)
    (lines : List String)
    (hne : ∀ l ∈ lines, l ≠ "")
    (hres : ∀ l ∈ lines, isCommentLine l = false → (resolver l).isSome = true) :
    ∃ mods, getDefaultModulesFromManifest resolver lines = .ok mods
      ∧ mods.map Prod.fst = lines.filter (fun l => !(isCommentLine l))
      ∧ ∀ p ∈ mods, resolver p.1 = some p.2 := by
  induction lines with
  | nil => exact ⟨[], rfl, rfl, fun p hp => absurd hp (List.not_mem_nil p)⟩
  | cons line rest ih =>
    obtain ⟨mods, hmods, hmap, hresolved⟩ :=
      ih (fun l hl => hne l (List.mem_cons_of_mem line hl))
         (fun l hl h => hres l (List.mem_cons_of_mem line hl) h)
    have hdata : line.data ≠ [] := by
      intro h
      exact hne line (List.mem_cons_self line rest) (String.ext h)
    rcases hld : line.data with _ | ⟨c, cs⟩
    · exact absurd hld hdata
    · by_cases hc : c = '#'
      · have hcl : isCommentLine line = true := by
          unfold isCommentLine
          rw [hld]
          simp [hc]
        refine ⟨mods, ?_, ?_, hresolved⟩
        · simp only [getDefaultModulesFromManifest]
          rw [hld]
          simp [hc, hmods]
        · rw [List.filter_cons]
          simp [hcl, hmap]
      · have hcl : isCommentLine line = false := by
          unfold isCommentLine
          rw [hld]
          simp [hc]
        have hsome := hres line (List.mem_cons_self line rest) hcl
        obtain ⟨cls, hcls⟩ := Option.isSome_iff_exists.mp hsome
        refine ⟨(line, cls) :: mods, ?_, ?_, ?_⟩
        · simp only [getDefaultModulesFromManifest]
          rw [hld]
          simp [hc, hcls, hmods]
        · rw [List.filter_cons]
          simp [hcl, hmap]
        · intro p hp
          rcases List.mem_cons.mp hp with h | h
          · rw [h]
            exact hcls
          · exact hresolved p h

/-- Witness for C6 (amended) on a concrete two-line manifest containing a
comment-marked line. -/
theorem C6_manifest_amended_witness :
    (∀ l ∈ ["# comment", "mod.A"], l ≠ "")
    ∧ (∀ l ∈ ["# comment", "mod.A"], isCommentLine l = false →
        ((fun _ => some (ModClass.mk fun _ => true)) l).isSome = true)
    ∧ ∃ mods,
        getDefaultModulesFromManifest (fun _ => some (ModClass.mk fun _ => true))
          ["# comment", "mod.A"] = .ok mods
        ∧ mods.map Prod.fst = ["# comment", "mod.A"].filter (fun l => !(isCommentLine l))
        ∧ ∀ p ∈ mods, (fun _ => some (ModClass.mk fun _ => true)) p.1 = some p.2 :=
  ⟨by decide, by decide,
   C6_manifest_amended (fun _ => some (ModClass.mk fun _ => true))
     ["# comment", "mod.A"] (by decide) (by decide)⟩

theorem assocFind_mem {α : Type} (l : List (String × α)) (k : String) (v : α)
    (h : assocFind l k = some v) : (k, v) ∈ l := by
  induction l with
  | nil => exact absurd h (by simp [assocFind])
  | cons hd tl ih =>
    obtain ⟨k', v'⟩ := hd
    unfold assocFind at h
    by_cases hk : k' = k
    · rw [if_pos hk] at h
      cases h
      rw [hk]
      exact List.mem_cons_self _ _
    · rw [if_neg hk] at h
      exact List.mem_cons_of_mem _ (ih h)

/-- An already-registered pair resolves to its registered path, with no
registry change. -/
theorem get_resource_of_lookup_some (p : Project) (m r ext rel : String)
    (h : lookupResource p.resources m r = some rel) :
    p.get_resource m r ext = (pjoin p.dirName rel, p) := by
  unfold lookupResource at h
  rcases h1 : assocFind p.resources m with _ | inner
  · rw [h1] at h
    exact absurd h (by simp)
  · rw [h1] at h
    dsimp only at h
    simp [Project.get_resource, h1, h]

/-- An unregistered pair gets the default relative path registered, and the
returned filename joins it under the project directory. -/
theorem get_resource_register_of_none (p : Project) (m r ext : String)
    (h : lookupResource p.resources m r = none) :
    (p.get_resource m r ext).1 = pjoin p.dirName (r ++ "." ++ ext)
    ∧ lookupResource ((p.get_resource m r ext).2).resources m r
        = some (r ++ "." ++ ext) := by
  unfold lookupResource at h
  rcases h1 : assocFind p.resources m with _ | inner
  · constructor
    · simp [Project.get_resource, h1, assocFind_assocSet_self, assocFind, assocSet]
    · simp [Project.get_resource, lookupResource, h1, assocFind_assocSet_self,
        assocFind, assocSet]
  · rw [h1] at h
    dsimp only at h
    constructor
    · simp [Project.get_resource, h1, h, assocFind_assocSet_self]
    · simp [Project.get_resource, lookupResource, h1, h, assocFind_assocSet_self]

/-- C7: `delete_resource` fails with the not-found `CoilSnakeError` kind when
the module or the resource key is absent (returning no new state, so the
registry is untouched); on success the registry entry is removed for every
filesystem state alike, and a subsequent `get_resource` with the same keys
registers the fresh default entry `resource_name + "." + extension`. The
well-formedness hypothesis says the per-module dicts have unique keys, as
Python dicts do. -/
theorem C7_delete_resource (p : Project) (m r ext : String)
    (hwf : ∀ q ∈ p.resources, (q.2.map Prod.fst).Nodup) :
    (lookupResource p.resources m r = none →
      ∀ files, p.delete_resource files m r = .error (.noSuchModule m)
        ∨ p.delete_resource files m r = .error (.noSuchResource r m))
    ∧ (∀ rel, lookupResource p.resources m r = some rel →
      ∃ p2 : Project,
        (∀ files, ∃ files2, p.delete_resource files m r = .ok (p2, files2))
        ∧ lookupResource p2.resources m r = none
        ∧ (p2.get_resource m r ext).1 = pjoin p.dirName (r ++ "." ++ ext)
        ∧ lookupResource ((p2.get_resource m r ext).2).resources m r
            = some (r ++ "." ++ ext)) := by
  constructor
  · intro h files
    unfold lookupResource at h
    rcases h1 : assocFind p.resources m with _ | inner
    · left
      simp [Project.delete_resource, h1]
    · rw [h1] at h
      dsimp only at h
      right
      simp [Project.delete_resource, h1, h]
  · intro rel h
    unfold lookupResource at h
    rcases h1 : assocFind p.resources m with _ | inner
    · rw [h1] at h
      exact absurd h (by simp)
    · rw [h1] at h
      dsimp only at h
      have hinner : (inner.map Prod.fst).Nodup :=
        hwf (m, inner) (assocFind_mem _ _ _ h1)
      have hgone : lookupResource
          (assocSet p.resources m (assocErase inner r)) m r = none := by
        unfold lookupResource
        rw [assocFind_assocSet_self]
        exact assocFind_assocErase_self inner r hinner
      refine ⟨{ p with resources := assocSet p.resources m (assocErase inner r) },
        fun files => ?_, hgone,
        (get_resource_register_of_none _ m r ext hgone).1,
        (get_resource_register_of_none _ m r ext hgone).2⟩
      unfold Project.delete_resource
      rw [h1]
      dsimp only
      rw [h]
      dsimp only
      exact ⟨_, rfl⟩

/-- Witness for C7: a missing module key fails with not-found, and deleting
the registered pair of `projW` then re-creating it via `get_resource` yields
the fresh default entry. -/
theorem C7_delete_resource_witness :
    (projW.delete_resource [] "zz" "r" = .error (.noSuchModule "zz")
      ∨ projW.delete_resource [] "zz" "r" = .error (.noSuchResource "r" "zz"))
    ∧ ∃ p2 : Project,
        (∀ files, ∃ files2, projW.delete_resource files "m" "r" = .ok (p2, files2))
        ∧ lookupResource p2.resources "m" "r" = none
        ∧ (p2.get_resource "m" "r" "dat").1 = pjoin projW.dirName ("r" ++ "." ++ "dat")
        ∧ lookupResource ((p2.get_resource "m" "r" "dat").2).resources "m" "r"
            = some ("r" ++ "." ++ "dat") :=
  ⟨(C7_delete_resource projW "zz" "r" "dat" (by decide)).1 (by decide) [],
   (C7_delete_resource projW "m" "r" "dat" (by decide)).2 "r.dat" (by decide)⟩

/-- C8: two consecutive `get_resource` calls with the same arguments return
the same filename, the second call leaves the project unchanged (the entry
is registered exactly once), and a first call on an unregistered pair
registers the default relative path. -/
theorem C8_get_resource_twice (p : Project) (m r ext : String) :
    ((p.get_resource m r ext).2.get_resource m r ext).1
        = (p.get_resource m r ext).1
    ∧ ((p.get_resource m r ext).2.get_resource m r ext).2
        = (p.get_resource m r ext).2
    ∧ (lookupResource p.resources m r = none →
        lookupResource ((p.get_resource m r ext).2).resources m r
          = some (r ++ "." ++ ext)) := by
  have hdir : ((p.get_resource m r ext).2).dirName = p.dirName := rfl
  rcases h : lookupResource p.resources m r with _ | rel
  · obtain ⟨hf, hreg⟩ := get_resource_register_of_none p m r ext h
    have h2 := get_resource_of_lookup_some ((p.get_resource m r ext).2) m r ext
      (r ++ "." ++ ext) hreg
    refine ⟨?_, ?_, fun _ => hreg⟩
    · rw [h2, hf]
      dsimp only
      rw [hdir]
    · rw [h2]
  · have h1 := get_resource_of_lookup_some p m r ext rel h
    have h2 := get_resource_of_lookup_some ((p.get_resource m r ext).2) m r ext rel
      (by rw [h1]; exact h)
    refine ⟨?_, ?_, fun hn => absurd hn (by simp)⟩
    · rw [h2, h1]
    · rw [h2, h1]

/-- Witness for C8 at an unregistered pair of the concrete project `projW`. -/
theorem C8_get_resource_twice_witness :
    ((projW.get_resource "m2" "r2" "dat").2.get_resource "m2" "r2" "dat").1
        = (projW.get_resource "m2" "r2" "dat").1
    ∧ ((projW.get_resource "m2" "r2" "dat").2.get_resource "m2" "r2" "dat").2
        = (projW.get_resource "m2" "r2" "dat").2
    ∧ lookupResource ((projW.get_resource "m2" "r2" "dat").2).resources "m2" "r2"
        = some ("r2" ++ "." ++ "dat") :=
  ⟨(C8_get_resource_twice projW "m2" "r2" "dat").1,
   (C8_get_resource_twice projW "m2" "r2" "dat").2.1,
   (C8_get_resource_twice projW "m2" "r2" "dat").2.2 (by decide)⟩

/-- C9: when `get_resource` registers an unregistered pair and the
subsequent file open fails, the fresh registry entry nevertheless remains:
the registration is not rolled back on open failure. -/
theorem C9_registration_survives_open_failure (p : Project)
    (openOk : String → Bool) (m r ext : String)
    (hunreg : lookupResource p.resources m r = none)
    (hfail : (p.get_resource_attempt_open openOk m r ext).1 = none) :
    lookupResource ((p.get_resource_attempt_open openOk m r ext).2).resources m r
      = some (r ++ "." ++ ext) :=
  (get_resource_register_of_none p m r ext hunreg).2

/-- Witness for C9: a concrete project, an unregistered pair, and an open
that always fails. -/
theorem C9_registration_survives_open_failure_witness :
    lookupResource projW.resources "m3" "r3" = none
    ∧ (projW.get_resource_attempt_open (fun _ => false) "m3" "r3" "dat").1 = none
    ∧ lookupResource
        ((projW.get_resource_attempt_open (fun _ => false) "m3" "r3" "dat").2).resources
        "m3" "r3" = some ("r3" ++ "." ++ "dat") :=
  ⟨by decide, by decide,
   C9_registration_survives_open_failure projW (fun _ => false) "m3" "r3" "dat"
     (by decide) (by decide)⟩

/-- C10: the version attribute is assigned only on the matching-open path
(the stored version, defaulting to 1 when absent); a mismatched-type open and
a fresh creation leave it unassigned (`none`, so reading it raises), and a
successful `upgrade` call assigns the new version number. -/
theorem C10_version_assignment (registry : Registry) (dir : String)
    (data : ProjectFile) (rt : String) (old_version new_version : Nat)
    (p : Project) :
    (∀ q, Project.init registry dir (some data) none = .ok q →
        q.version = some (data.version.getD 1))
    ∧ (∀ q, Project.init registry dir (some data) (some data.romtype) = .ok q →
        q.version = some (data.version.getD 1))
    ∧ (rt ≠ data.romtype →
        ∀ q, Project.init registry dir (some data) (some rt) = .ok q →
          q.version = none)
    ∧ (∀ q, Project.init registry dir none (some rt) = .ok q → q.version = none)
    ∧ (∀ q, p.upgrade registry old_version new_version = .ok q →
        q.version = some new_version) := by
  refine ⟨?_, ?_, ?_, ?_, ?_⟩
  · intro q hq
    unfold Project.init at hq
    dsimp only at hq
    rw [if_pos (Or.inl rfl)] at hq
    cases hq
    rfl
  · intro q hq
    unfold Project.init at hq
    dsimp only at hq
    rw [if_pos (Or.inr rfl)] at hq
    cases hq
    rfl
  · intro hne q hq
    unfold Project.init at hq
    dsimp only at hq
    have hcond : ¬(some rt = none ∨ some rt = some data.romtype) := by
      rintro (hc | hc)
      · exact Option.noConfusion hc
      · exact hne (Option.some.inj hc)
    rw [if_neg hcond] at hq
    cases hq
    rfl
  · intro q hq
    unfold Project.init at hq
    dsimp only at hq
    by_cases hr : rt = "" ∨ rt = ROM_TYPE_NAME_UNKNOWN
    · rw [if_pos hr] at hq
      exact absurd hq (by simp)
    · rw [if_neg hr] at hq
      cases hq
      rfl
  · intro q hq
    unfold Project.upgrade at hq
    rcases h : p.moduleconfig.upgrade registry old_version new_version with e | u
    · rw [h] at hq
      dsimp only at hq
      exact absurd hq (by simp)
    · rw [h] at hq
      dsimp only at hq
      cases hq
      rfl

/-- The matching-open result for `fileW`, carrying its stored version 12. -/
def qW1 : Project :=
  { romtype := "Y",
    resources := [("m", [("r", "r.dat")])],
    moduleconfig := ModuleConfig.init [] "Y" "d" fileW.moduleconfig,
    version := some 12,
    dirName := "d" }

/-- The mismatched-open (and fresh-creation) result for romtype "X": no
version assigned. -/
def qW2 : Project :=
  { romtype := "X",
    resources := [],
    moduleconfig := ModuleConfig.init [] "X" "d" none,
    version := none,
    dirName := "d" }

/-- A project in default configuration with no version assigned, ready for
`upgrade`. -/
def pW : Project :=
  { romtype := "X", resources := [], moduleconfig := cfgW,
    version := none, dirName := "d" }

/-- Witness for C10: all five version-assignment cases at concrete inputs. -/
theorem C10_version_assignment_witness :
    qW1.version = some 12 ∧ qW1.version = some 12
    ∧ qW2.version = none ∧ qW2.version = none
    ∧ { pW with version := some 13 }.version = some 13 :=
  ⟨(C10_version_assignment [] "d" fileW "X" 5 13 pW).1 qW1 rfl,
   (C10_version_assignment [] "d" fileW "X" 5 13 pW).2.1 qW1 rfl,
   (C10_version_assignment [] "d" fileW "X" 5 13 pW).2.2.1 (by decide) qW2 rfl,
   (C10_version_assignment [] "d" fileW "X" 5 13 pW).2.2.2.1 qW2 rfl,
   (C10_version_assignment [] "d" fileW "X" 5 13 pW).2.2.2.2
     { pW with version := some 13 } rfl⟩
